import Mathlib

/-!
Verification of the document-retriever core of the sber-agents repository.

The development shallowly embeds the three near-duplicate retriever classes of
`05-rag-langchain/src`:

* `LocalVectorStore` (indexer.py and indexer_with_json.py): a TF-IDF store.
  The scikit-learn vectorizer is abstracted as a function `String → Vec`
  (the fitted `transform`); `fit_transform` is modelled by passing the freshly
  fitted function to `add_documents`.  Its `similarity_search` and the
  json variant's `keyword_search` are translated line by line.
* `LocalEmbeddingVectorStore` (indexer_with_local_embeddings.py): the
  sentence-transformer store; `model.encode` is abstracted as `String → Vec`.
* `create_vector_store` (indexer.py): the OpenAI-or-fallback constructor; the
  external provider is modelled by an availability flag feeding an `Except`.

Numeric modelling: NumPy/scikit-learn float arithmetic is modelled by exact
rationals.  A cosine-similarity value `dot/(‖a‖·‖b‖)` is represented exactly by
the pair `Sim` of its numerator `dot a b` and the square `den2` of its
denominator (scikit-learn's `normalize` replaces a zero norm by 1, hence
`den2 > 0` always).  The real value of `⟨num, den2⟩` is `num / √den2`;
comparisons between two such values are performed exactly by sign analysis and
cross-multiplied squares, so no square root is ever materialised.  NumPy's
`argsort` is modelled as a stable ascending sort on indices (the model most
favourable to the spec's stable-tie-break claim; NumPy's default introsort
gives no stability guarantee at all, and is insertion sort — stable — on the
small arrays of the counterexamples).
-/

/-- A LangChain `Document`: text (`page_content`) plus string metadata, as
produced by the loaders and consumed by the stores. -/
structure Doc where
  page_content : String
  metadata : List (String × String) := []
deriving DecidableEq

/-- A numeric vector (a row of the TF-IDF matrix or an embedding), with floats
modelled as exact rationals. -/
abbrev Vec := List ℚ

/-- Dot product of two vectors (`np.dot` on row vectors). -/
def dot (a b : Vec) : ℚ := (List.zipWith (fun x y => x * y) a b).sum

/-- Squared Euclidean norm. -/
def sqNorm (a : Vec) : ℚ := dot a a

/-- Exact representation of one cosine-similarity value: `num` is the dot
product of the two vectors, `den2` the square of the denominator
`‖a‖·‖b‖` after scikit-learn's zero-norm-to-1 replacement.  The real value
represented is `num / √den2`, and `den2 > 0` by construction. -/
structure Sim where
  num : ℚ
  den2 : ℚ
deriving DecidableEq

/-- The `Sim` with value 0, used as an (unreachable) out-of-range default. -/
def simZero : Sim := ⟨0, 1⟩

/-- `sklearn.metrics.pairwise.cosine_similarity` on one pair of rows:
`dot(a,b) / (‖a‖·‖b‖)`, where `normalize` maps a zero norm to 1 (so a zero
vector yields similarity 0, never NaN). -/
def cosineSim (a b : Vec) : Sim :=
  ⟨dot a b,
   (if sqNorm a = 0 then 1 else sqNorm a) * (if sqNorm b = 0 then 1 else sqNorm b)⟩

/-- Exact strict comparison of the real values of two `Sim`s
(`a.num / √a.den2 < b.num / √b.den2`, assuming positive `den2`), decided by
sign analysis and cross-multiplied squares. -/
def Sim.lt (a b : Sim) : Bool :=
  if 0 < b.num then
    decide (¬ 0 < a.num) || decide (a.num ^ 2 * b.den2 < b.num ^ 2 * a.den2)
  else if a.num < 0 then
    decide (0 ≤ b.num) || decide (b.num ^ 2 * a.den2 < a.num ^ 2 * b.den2)
  else
    false

/-- `0 < sim`: with a positive `den2` the sign of the value is the sign of the
numerator, so this is the code's `similarities[idx] > 0` test. -/
def Sim.pos (s : Sim) : Bool := decide (0 < s.num)

/-- Python slice `l[-k:]` for an `int` k: for `k ≤ 0` the start index `-k` is
non-negative (`l[0:]` is the whole list), for `k > 0` it keeps the last
`min k (length l)` elements. -/
def pySliceLastK (k : Int) (l : List α) : List α :=
  if k ≤ 0 then l.drop (-k).toNat else l.drop (l.length - k.toNat)

/-- Python slice `l[:k]` for an `int` k: `l[:k]` keeps the first
`min k (length l)` elements for `k ≥ 0` and drops the last `-k` for `k < 0`. -/
def pySliceFirstK (k : Int) (l : List α) : List α :=
  if k < 0 then l.take (l.length - (-k).toNat) else l.take k.toNat

/-- One step of the stable ascending insertion sort on indices: `i` is placed
before the first already-placed index with a strictly larger similarity, hence
after every equal one (stability). -/
def insertAsc (sims : List Sim) (i : Nat) : List Nat → List Nat
  | [] => [i]
  | j :: js =>
    if Sim.lt (sims.getD i simZero) (sims.getD j simZero) then i :: j :: js
    else j :: insertAsc sims i js

/-- `np.argsort(similarities)` modelled as a stable ascending sort of the
indices `0, …, n-1` by similarity value. -/
def argsort (sims : List Sim) : List Nat :=
  (List.range sims.length).foldl (fun acc i => insertAsc sims i acc) []

/-- The TF-IDF store of indexer.py / indexer_with_json.py: `self.documents`
and the row-aligned TF-IDF matrix `self.embeddings` (`None` before the first
`add_documents`). -/
structure LocalVectorStore where
  documents : List Doc
  embeddings : Option (List Vec)
deriving DecidableEq

/-- `LocalVectorStore.__init__`: no documents, embeddings `None`. -/
def LocalVectorStore.empty : LocalVectorStore := ⟨[], none⟩

/-- `LocalVectorStore.add_documents`: `self.documents = documents` (assignment,
not append) and `self.embeddings = self.vectorizer.fit_transform(texts)`.
`fit` is the vectorizer's transform as (re)fitted on exactly these texts. -/
def LocalVectorStore.add_documents (fit : String → Vec) (_prev : LocalVectorStore)
    (documents : List Doc) : LocalVectorStore :=
  ⟨documents, some (documents.map (fun d => fit d.page_content))⟩

/-- `LocalVectorStore.similarity_search`: guard on `embeddings is None` or an
empty document list, vectorize the query, take cosine similarities against
every stored row, `argsort()[-k:][::-1]`, and keep only documents whose
similarity is strictly positive. -/
def LocalVectorStore.similarity_search (vectorize : String → Vec)
    (st : LocalVectorStore) (query : String) (k : Int) : List Doc :=
  if st.embeddings = none ∨ st.documents.length = 0 then []
  else
    let query_vec := vectorize query
    let similarities := (st.embeddings.getD []).map (fun e => cosineSim query_vec e)
    let top_indices := (pySliceLastK k (argsort similarities)).reverse
    top_indices.filterMap (fun idx =>
      if (similarities.getD idx simZero).pos then st.documents[idx]? else none)

/-- Python `str.lower()` (character-wise; exact on the ASCII inputs used
here). -/
def pyLower (s : String) : String := s.map Char.toLower

/-- Python `str.split()` with no argument: split on whitespace runs,
discarding empty pieces. -/
def pySplitWS (s : String) : List String :=
  (s.split (fun c => c.isWhitespace)).filter (fun w => w ≠ "")

/-- Worker for `countOccs`: fuelled scan, counting non-overlapping matches
left to right; the fuel starts at the haystack length, which bounds the number
of steps as long as the needle is non-empty. -/
def countFrom (nd : List Char) : Nat → List Char → Nat
  | 0, _ => 0
  | _ + 1, [] => 0
  | fuel + 1, c :: rest =>
    if nd.isPrefixOf (c :: rest) then 1 + countFrom nd fuel ((c :: rest).drop nd.length)
    else countFrom nd fuel rest

/-- Python `hay.count(needle)`: the number of non-overlapping occurrences of
`needle` in `hay`, scanning left to right (`len(hay)+1` for the empty
needle, as in Python; the callers never pass one). -/
def countOccs (needle hay : String) : Nat :=
  if needle.toList.isEmpty then hay.toList.length + 1
  else countFrom needle.toList hay.toList.length hay.toList

/-- The score loop of `LocalVectorStore.keyword_search` (indexer_with_json.py):
only query words longer than 3 characters contribute, each adding
`content.count(word) * len(word)`.  (Python accumulates left to right; the
sum is the same.) -/
def kwScore : List String → String → Nat
  | [], _ => 0
  | w :: ws, content =>
    (if 3 < w.length then countOccs w content * w.length else 0) + kwScore ws content

/-- One step of the stable descending insertion sort used to model Python's
stable `list.sort(key=lambda x: x[0], reverse=True)`: a later element is
placed before an earlier one only when its score is strictly larger. -/
def insertDesc (x : Nat × Doc) : List (Nat × Doc) → List (Nat × Doc)
  | [] => [x]
  | y :: ys => if y.1 < x.1 then x :: y :: ys else y :: insertDesc x ys

/-- Python's stable sort by score, descending (`reverse=True` keeps equal-score
elements in their original order). -/
def sortDesc (l : List (Nat × Doc)) : List (Nat × Doc) :=
  l.foldl (fun acc x => insertDesc x acc) []

/-- `LocalVectorStore.keyword_search` (indexer_with_json.py): lowercase and
split the query, score every document with `kwScore`, keep strictly positive
scores only, sort descending (stable), and return the documents of the first
`k` scored pairs. -/
def LocalVectorStore.keyword_search (st : LocalVectorStore) (query : String)
    (k : Int) : List Doc :=
  if st.documents.isEmpty then []
  else
    let query_words := pySplitWS (pyLower query)
    let scored_docs := st.documents.filterMap (fun doc =>
      let score := kwScore query_words (pyLower doc.page_content)
      if 0 < score then some (score, doc) else none)
    (pySliceFirstK k (sortDesc scored_docs)).map (fun p => p.2)

/-- The sentence-transformer store of indexer_with_local_embeddings.py. -/
structure LocalEmbeddingVectorStore where
  documents : List Doc
  embeddings : Option (List Vec)
deriving DecidableEq

/-- `LocalEmbeddingVectorStore.__init__`. -/
def LocalEmbeddingVectorStore.empty : LocalEmbeddingVectorStore := ⟨[], none⟩

/-- `LocalEmbeddingVectorStore.add_documents`: `self.documents.extend(...)`
and `np.vstack` of the freshly encoded rows onto the existing matrix — an
incremental append, not a replacement. -/
def LocalEmbeddingVectorStore.add_documents (encode : String → Vec)
    (st : LocalEmbeddingVectorStore) (documents : List Doc) :
    LocalEmbeddingVectorStore :=
  ⟨st.documents ++ documents,
   some (st.embeddings.getD [] ++ documents.map (fun d => encode d.page_content))⟩

/-- `LocalEmbeddingVectorStore.similarity_search`: encode the query, cosine
similarities, `np.argsort(similarities)[-k:][::-1]`, and return the documents
at those indices — with no positivity filter at all. -/
def LocalEmbeddingVectorStore.similarity_search (encode : String → Vec)
    (st : LocalEmbeddingVectorStore) (query : String) (k : Int) : List Doc :=
  if st.documents.isEmpty then []
  else
    let query_embedding := encode query
    let similarities := (st.embeddings.getD []).map
      (fun e => cosineSim query_embedding e)
    let top_indices := (pySliceLastK k (argsort similarities)).reverse
    top_indices.filterMap (fun i => st.documents[i]?)

/-- `len(set(a) & set(b))`: the number of distinct strings common to both
lists (order-independent, as for Python sets). -/
def setInterCard (a b : List String) : Nat :=
  (a.dedup.filter (fun w => w ∈ b)).length

/-- `LocalEmbeddingVectorStore.keyword_search`: score every document by the
number of distinct lowercase words shared with the query, sort descending
(stable), slice the first `k` scored pairs, then drop zero scores. -/
def LocalEmbeddingVectorStore.keyword_search (st : LocalEmbeddingVectorStore)
    (query : String) (k : Int) : List Doc :=
  if st.documents.isEmpty then []
  else
    let query_words := pySplitWS (pyLower query)
    let scored_docs := st.documents.map (fun doc =>
      (setInterCard (pySplitWS (pyLower doc.page_content)) query_words, doc))
    (pySliceFirstK k (sortDesc scored_docs)).filterMap (fun p =>
      if 0 < p.1 then some p.2 else none)

/-- Result of `create_vector_store` (indexer.py): either the LangChain
`InMemoryVectorStore` built over OpenAI embeddings (kept opaque) or the local
TF-IDF fallback store. -/
inductive VectorStore where
  | openai (docs : List Doc)
  | localTfidf (store : LocalVectorStore)
deriving DecidableEq

/-- The `try` body of `create_vector_store`: building the OpenAI-backed store
either succeeds or throws; the external provider is modelled by the
availability flag. -/
def openaiFromDocuments (openai_available : Bool) (chunks : List Doc) :
    Except String (List Doc) :=
  if openai_available then Except.ok chunks
  else Except.error "embedding provider unreachable"

/-- `create_vector_store` (indexer.py): try the OpenAI store; on any exception
fall back to a fresh `LocalVectorStore` populated with the same chunks. -/
def create_vector_store (openai_available : Bool) (fit : String → Vec)
    (chunks : List Doc) : VectorStore :=
  match openaiFromDocuments openai_available chunks with
  | Except.ok docs => VectorStore.openai docs
  | Except.error _ =>
      VectorStore.localTfidf (LocalVectorStore.empty.add_documents fit chunks)

/-- Modelled from the spec (claim C6's wording): per-chunk keyword score with
no word-length filter — the sum over all lowercase query words of
(occurrence count of the word in the chunk × the word's length).  This is the
spec-side definition used only to compare against `kwScore`. -/
def claimKwScore : List String → String → Nat
  | [], _ => 0
  | w :: ws, content => countOccs w content * w.length + claimKwScore ws content

/-- Modelled from the spec (claim C6's wording): keyword search that scores
with `claimKwScore`, discards zero scores, sorts descending with stable
tie-break by ingestion order, and returns the first `k` documents. -/
def claimKeywordSearch (docs : List Doc) (query : String) (k : Int) : List Doc :=
  let query_words := pySplitWS (pyLower query)
  let scored_docs := docs.filterMap (fun doc =>
    let score := claimKwScore query_words (pyLower doc.page_content)
    if 0 < score then some (score, doc) else none)
  (pySliceFirstK k (sortDesc scored_docs)).map (fun p => p.2)

/-! ### Helper lemmas -/

theorem dot_eq_zero_of_zero_left (a b : Vec) (h : ∀ x ∈ a, x = 0) : dot a b = 0 := by
  induction a generalizing b with
  | nil => simp [dot]
  | cons x xs ih =>
    cases b with
    | nil => simp [dot]
    | cons y ys =>
      have hx : x = 0 := h x (by simp)
      have := ih ys (fun z hz => h z (by simp [hz]))
      simp [dot, List.zipWith_cons_cons, hx] at *
      simpa [dot] using this

theorem Sim.lt_self (s : Sim) : Sim.lt s s = false := by
  unfold Sim.lt
  split_ifs with h1 h2
  · simp [h1, lt_irrefl]
  · simp [not_le.mpr h2, lt_irrefl]
  · rfl

theorem insertAsc_length (sims : List Sim) (i : Nat) (l : List Nat) :
    (insertAsc sims i l).length = l.length + 1 := by
  induction l with
  | nil => rfl
  | cons j js ih =>
    unfold insertAsc
    split_ifs <;> simp [ih]

theorem insertAsc_append (sims : List Sim) (i : Nat) (l : List Nat)
    (h : ∀ j ∈ l, Sim.lt (sims.getD i simZero) (sims.getD j simZero) = false) :
    insertAsc sims i l = l ++ [i] := by
  induction l with
  | nil => rfl
  | cons j js ih =>
    have hj := h j (by simp)
    have hstep : insertAsc sims i (j :: js) = j :: insertAsc sims i js := by
      show (if Sim.lt (sims.getD i simZero) (sims.getD j simZero) then i :: j :: js
            else j :: insertAsc sims i js) = j :: insertAsc sims i js
      rw [hj]
      simp
    rw [hstep, ih (fun x hx => h x (by simp [hx]))]
    simp

theorem foldl_insertAsc_length (sims : List Sim) (l : List Nat) (acc : List Nat) :
    (l.foldl (fun a i => insertAsc sims i a) acc).length = acc.length + l.length := by
  induction l generalizing acc with
  | nil => simp
  | cons i is ih =>
    simp only [List.foldl_cons]
    rw [ih, insertAsc_length, List.length_cons]
    omega

theorem argsort_length (sims : List Sim) : (argsort sims).length = sims.length := by
  unfold argsort
  rw [foldl_insertAsc_length]
  simp

theorem foldl_insertAsc_const (sims : List Sim) (s : Sim) (l acc : List Nat)
    (hl : ∀ i ∈ l, sims.getD i simZero = s)
    (hacc : ∀ j ∈ acc, sims.getD j simZero = s) :
    l.foldl (fun a i => insertAsc sims i a) acc = acc ++ l := by
  induction l generalizing acc with
  | nil => simp
  | cons i is ih =>
    have h1 : insertAsc sims i acc = acc ++ [i] := by
      apply insertAsc_append
      intro j hj
      rw [hl i (by simp), hacc j hj]
      exact Sim.lt_self s
    simp only [List.foldl_cons, h1]
    rw [ih (acc ++ [i]) (fun x hx => hl x (by simp [hx]))
        (fun x hx => by
          rcases List.mem_append.mp hx with hxa | hxb
          · exact hacc x hxa
          · rw [List.mem_singleton] at hxb
            rw [hxb]
            exact hl i (by simp))]
    simp

theorem getD_of_lt {α : Type} (l : List α) (i : Nat) (dflt : α) (h : i < l.length) :
    l.getD i dflt = l[i] := by
  rw [List.getD_eq_getElem?_getD, List.getElem?_eq_getElem h]
  rfl

theorem getD_of_ge {α : Type} (l : List α) (i : Nat) (dflt : α) (h : l.length ≤ i) :
    l.getD i dflt = dflt := by
  rw [List.getD_eq_getElem?_getD, List.getElem?_eq_none h]
  rfl

theorem argsort_of_const (sims : List Sim) (s : Sim) (h : ∀ x ∈ sims, x = s) :
    argsort sims = List.range sims.length := by
  unfold argsort
  rw [foldl_insertAsc_const sims s _ []
      (fun i hi => by
        rw [getD_of_lt sims i simZero (List.mem_range.mp hi)]
        exact h _ (List.getElem_mem (List.mem_range.mp hi)))
      (by simp)]
  simp

theorem range_filterMap_getElem (l : List α) :
    (List.range l.length).filterMap (fun i => l[i]?) = l := by
  induction l with
  | nil => simp
  | cons a as ih =>
    have hcomp : ((fun i => (a :: as)[i]?) ∘ Nat.succ) = fun i : Nat => as[i]? := by
      funext i
      simp
    rw [List.length_cons, List.range_succ_eq_map, List.filterMap_cons]
    simp only [List.getElem?_cons_zero, List.filterMap_map, hcomp, ih]

theorem filterMap_congr_mem {f g : α → Option β} (l : List α)
    (h : ∀ a ∈ l, f a = g a) : l.filterMap f = l.filterMap g := by
  induction l with
  | nil => rfl
  | cons a as ih =>
    rw [List.filterMap_cons, List.filterMap_cons, h a (by simp),
        ih (fun x hx => h x (by simp [hx]))]

theorem pySliceLastK_length_of_one_le (k : Int) (l : List α) (hk : 1 ≤ k) :
    (pySliceLastK k l).length = min k.toNat l.length := by
  unfold pySliceLastK
  rw [if_neg (by omega)]
  rw [List.length_drop]
  omega

theorem similarity_search_mem_documents (v : String → Vec) (st : LocalVectorStore)
    (q : String) (k : Int) (d : Doc)
    (hd : d ∈ st.similarity_search v q k) : d ∈ st.documents := by
  unfold LocalVectorStore.similarity_search at hd
  split_ifs at hd
  · simp at hd
  · simp only [List.mem_filterMap] at hd
    obtain ⟨i, _, hi⟩ := hd
    split_ifs at hi
    exact List.getElem?_mem hi

theorem insertDesc_length (x : Nat × Doc) (l : List (Nat × Doc)) :
    (insertDesc x l).length = l.length + 1 := by
  induction l with
  | nil => rfl
  | cons y ys ih =>
    unfold insertDesc
    split_ifs <;> simp [ih]

theorem sortDesc_length (l : List (Nat × Doc)) : (sortDesc l).length = l.length := by
  have key : ∀ (m : List (Nat × Doc)) (acc : List (Nat × Doc)),
      (m.foldl (fun a x => insertDesc x a) acc).length = acc.length + m.length := by
    intro m
    induction m with
    | nil => simp
    | cons x xs ih =>
      intro acc
      simp only [List.foldl_cons]
      rw [ih, insertDesc_length, List.length_cons]
      omega
  unfold sortDesc
  rw [key]
  simp

theorem kwScore_eq_zero_of_short (ws : List String) (c : String)
    (h : ∀ w ∈ ws, w.length ≤ 3) : kwScore ws c = 0 := by
  induction ws with
  | nil => rfl
  | cons w ws ih =>
    have hw : ¬ 3 < w.length := by
      have := h w (by simp)
      omega
    simp [kwScore, if_neg hw, ih (fun x hx => h x (by simp [hx]))]

theorem kwScore_eq_claim_of_long (ws : List String) (c : String)
    (h : ∀ w ∈ ws, 3 < w.length) : kwScore ws c = claimKwScore ws c := by
  induction ws with
  | nil => rfl
  | cons w ws ih =>
    simp [kwScore, claimKwScore, if_pos (h w (by simp)),
      ih (fun x hx => h x (by simp [hx]))]

/-! ### Claim C1 -/

/-- Claim C1, counterexample: the sentence-transformer store's
`similarity_search` (indexer_with_local_embeddings.py) does not filter by
similarity sign — a chunk whose cosine similarity to the query is exactly 0
(orthogonal vectors) is still returned, so the stated exclusion of
`similarity ≤ 0` chunks is false for this cited implementation. -/
theorem C1_counterexample :
    (LocalEmbeddingVectorStore.empty.add_documents
        (fun s => if s = "query" then [0, 1] else [1, 0])
        [⟨"doc", []⟩]).similarity_search
        (fun s => if s = "query" then [0, 1] else [1, 0]) "query" 3
      = [⟨"doc", []⟩] ∧
    cosineSim [0, 1] [1, 0] = ⟨0, 1⟩ := by
  with_unfolding_all decide

/-- Claim C1 (amended): for the TF-IDF `LocalVectorStore` (indexer.py),
every document returned by `similarity_search` does have strictly positive
cosine similarity to the query, so the result is never padded with
non-positive-similarity chunks there. -/
theorem C1_tfidf_positive_only (v : String → Vec) (st : LocalVectorStore)
    (q : String) (k : Int) (d : Doc)
    (hd : d ∈ st.similarity_search v q k) :
    ∃ i, st.documents[i]? = some d ∧
      (cosineSim (v q) ((st.embeddings.getD []).getD i [])).pos = true := by
  unfold LocalVectorStore.similarity_search at hd
  split_ifs at hd
  · simp at hd
  · simp only [List.mem_filterMap] at hd
    obtain ⟨i, _, hi⟩ := hd
    by_cases hpos :
        (((st.embeddings.getD []).map (fun e => cosineSim (v q) e)).getD i simZero).pos = true
    · refine ⟨i, ?_, ?_⟩
      · rw [if_pos hpos] at hi
        exact hi
      · have hlen : i < ((st.embeddings.getD []).map (fun e => cosineSim (v q) e)).length := by
          by_contra hge
          rw [getD_of_ge _ i simZero (by omega)] at hpos
          simp [Sim.pos, simZero] at hpos
        have hlen' : i < (st.embeddings.getD []).length := by simpa using hlen
        rw [getD_of_lt _ i simZero hlen, List.getElem_map] at hpos
        rw [getD_of_lt _ i [] hlen']
        exact hpos
    · rw [if_neg hpos] at hi
      simp at hi

/-- Claim C1 witness: a one-chunk TF-IDF index where the returned chunk
indeed has positive similarity. -/
theorem C1_witness :
    ((⟨"hello", []⟩ : Doc) ∈
      (LocalVectorStore.empty.add_documents (fun _ => [1])
        [⟨"hello", []⟩]).similarity_search (fun _ => [1]) "hello" 3) ∧
    ∃ i, ((LocalVectorStore.empty.add_documents (fun _ => [1])
        [⟨"hello", []⟩]).documents)[i]? = some ⟨"hello", []⟩ ∧
      (cosineSim ((fun _ : String => ([1] : Vec)) "hello")
        (((LocalVectorStore.empty.add_documents (fun _ => [1])
          [⟨"hello", []⟩]).embeddings.getD []).getD i [])).pos = true :=
  ⟨by with_unfolding_all decide,
   C1_tfidf_positive_only (fun _ => [1])
     (LocalVectorStore.empty.add_documents (fun _ => [1]) [⟨"hello", []⟩])
     "hello" 3 ⟨"hello", []⟩ (by with_unfolding_all decide)⟩

/-! ### Claim C3 -/

/-- Claim C3, counterexample: the sentence-transformer store
(indexer_with_local_embeddings.py) appends on `add_documents` instead of
replacing, so after indexing `[alpha]` and then `[beta]` a search still
returns the chunk `alpha` of the first collection. -/
theorem C3_counterexample :
    ((LocalEmbeddingVectorStore.empty.add_documents (fun _ => [1])
        [⟨"alpha", []⟩]).add_documents (fun _ => [1])
        [⟨"beta", []⟩]).similarity_search (fun _ => [1]) "q" 2
      = [⟨"beta", []⟩, ⟨"alpha", []⟩] ∧
    (⟨"alpha", []⟩ : Doc) ∉ [(⟨"beta", []⟩ : Doc)] := by
  with_unfolding_all decide

/-- Claim C3 (amended): for the TF-IDF `LocalVectorStore` (indexer.py),
`add_documents` is a wholesale replace — after indexing `Ca` then `Cb` the
store holds exactly `Cb`, its vectors are recomputed from `Cb` alone, and
every subsequent search result is a chunk of `Cb`. -/
theorem C3_tfidf_replace (f1 f2 v : String → Vec) (Ca Cb : List Doc)
    (q : String) (k : Int) :
    ((LocalVectorStore.empty.add_documents f1 Ca).add_documents f2 Cb).documents = Cb ∧
    ((LocalVectorStore.empty.add_documents f1 Ca).add_documents f2 Cb).embeddings =
      some (Cb.map (fun d => f2 d.page_content)) ∧
    ∀ d ∈ ((LocalVectorStore.empty.add_documents f1 Ca).add_documents f2 Cb).similarity_search
        v q k, d ∈ Cb := by
  refine ⟨rfl, rfl, ?_⟩
  intro d hd
  exact similarity_search_mem_documents v _ q k d hd

/-- Claim C3 witness: after replacing `[a]` by `[b]`, the single search hit
is a member of the second collection. -/
theorem C3_witness : (⟨"b", []⟩ : Doc) ∈ [(⟨"b", []⟩ : Doc)] :=
  (C3_tfidf_replace (fun _ => [1]) (fun _ => [1]) (fun _ => [1])
    [⟨"a", []⟩] [⟨"b", []⟩] "q" 3).2.2 ⟨"b", []⟩ (by with_unfolding_all decide)

/-! ### Claim C7 -/

/-- Claim C7: when the embedding provider is unavailable,
`create_vector_store` (indexer.py) catches the failure and returns a fully
populated local TF-IDF store over the same chunks (the error is not
surfaced), and every query against that store answers only with chunks of
the indexed collection — a single, purely lexical strategy. -/
theorem C7_fallback_to_tfidf (fit : String → Vec) (chunks : List Doc) :
    create_vector_store false fit chunks =
      VectorStore.localTfidf ⟨chunks, some (chunks.map (fun d => fit d.page_content))⟩ ∧
    ∀ q k d,
      d ∈ (LocalVectorStore.empty.add_documents fit chunks).similarity_search fit q k →
      d ∈ chunks := by
  refine ⟨rfl, ?_⟩
  intro q k d hd
  exact similarity_search_mem_documents fit _ q k d hd

/-- Claim C7 witness: the fallback store built from one chunk answers a
query with that chunk. -/
theorem C7_witness : (⟨"fallback chunk", []⟩ : Doc) ∈ [(⟨"fallback chunk", []⟩ : Doc)] :=
  (C7_fallback_to_tfidf (fun _ => [1]) [⟨"fallback chunk", []⟩]).2 "q" 3
    ⟨"fallback chunk", []⟩ (by with_unfolding_all decide)

/-! ### Claim C9 -/

/-- Claim C9, counterexample: `similarity_search` does not raise for
`k = 0` — NumPy slicing makes `argsort()[-0:]` the whole index, so the call
returns a normal, even non-empty, result instead of an error. -/
theorem C9_counterexample :
    (LocalVectorStore.empty.add_documents (fun _ => [1])
      [⟨"a", []⟩]).similarity_search (fun _ => [1]) "q" 0 = [⟨"a", []⟩] := by
  with_unfolding_all decide

/-- Claim C9 (amended): the query path never raises, for any `k`; in
particular for `k ≤ 0` the call is not rejected but silently returns a
structured result drawn from the stored documents (for `k = 0` every
positive-similarity chunk). -/
theorem C9_nonpositive_k_returns (v : String → Vec) (st : LocalVectorStore)
    (q : String) (k : Int) (_hk : k ≤ 0) (d : Doc)
    (hd : d ∈ st.similarity_search v q k) : d ∈ st.documents :=
  similarity_search_mem_documents v st q k d hd

/-- Claim C9 witness: the `k = 0` call above returns a stored document. -/
theorem C9_witness :
    ((0 : Int) ≤ 0) ∧
    (⟨"a", []⟩ : Doc) ∈ (LocalVectorStore.empty.add_documents (fun _ => [1])
      [⟨"a", []⟩]).documents :=
  ⟨by decide,
   C9_nonpositive_k_returns (fun _ => [1]) _ "q" 0 (by decide) ⟨"a", []⟩
     (by with_unfolding_all decide)⟩

/-! ### Claim C4 -/

/-- Claim C4: for a non-empty indexed collection `C` and any `k ≥ 1`, both
`similarity_search` and `keyword_search` of the TF-IDF store return at most
`min k |C|` documents — never a padded sequence. -/
theorem C4_length_le_min (fit : String → Vec) (C : List Doc) (q : String)
    (k : Int) (hk : 1 ≤ k) (_hC : C ≠ []) :
    ((LocalVectorStore.empty.add_documents fit C).similarity_search fit q k).length ≤
      min k.toNat C.length ∧
    ((LocalVectorStore.empty.add_documents fit C).keyword_search q k).length ≤
      min k.toNat C.length := by
  constructor
  · unfold LocalVectorStore.similarity_search
    split_ifs
    · simp
    · refine le_trans (List.length_filterMap_le _ _) ?_
      rw [List.length_reverse, pySliceLastK_length_of_one_le k _ hk, argsort_length,
        List.length_map]
      have : ((LocalVectorStore.empty.add_documents fit C).embeddings.getD []).length
          = C.length := by
        simp [LocalVectorStore.add_documents]
      rw [this]
  · unfold LocalVectorStore.keyword_search
    split_ifs
    · simp
    · rw [List.length_map]
      unfold pySliceFirstK
      rw [if_neg (by omega), List.length_take, sortDesc_length]
      have hle : ((LocalVectorStore.empty.add_documents fit C).documents.filterMap
          (fun doc =>
            let score := kwScore (pySplitWS (pyLower q)) (pyLower doc.page_content)
            if 0 < score then some (score, doc) else none)).length ≤ C.length := by
        refine le_trans (List.length_filterMap_le _ _) ?_
        simp [LocalVectorStore.add_documents]
      omega

/-- Claim C4 witness: `k = 3` against a one-chunk index — both result
lengths are at most `min 3 1 = 1`. -/
theorem C4_witness :
    ((1 : Int) ≤ 3) ∧ ([(⟨"solo", []⟩ : Doc)] ≠ []) ∧
    (((LocalVectorStore.empty.add_documents (fun _ => [1])
        [⟨"solo", []⟩]).similarity_search (fun _ => [1]) "q" 3).length ≤
      min (3 : Int).toNat [(⟨"solo", []⟩ : Doc)].length ∧
    ((LocalVectorStore.empty.add_documents (fun _ => [1])
        [⟨"solo", []⟩]).keyword_search "q" 3).length ≤
      min (3 : Int).toNat [(⟨"solo", []⟩ : Doc)].length) :=
  ⟨by decide, by decide,
   C4_length_le_min (fun _ => [1]) [⟨"solo", []⟩] "q" 3 (by decide) (by decide)⟩

/-! ### Claim C5 -/

/-- Claim C5: a query whose vector is the zero vector has cosine similarity 0
to every stored vector (never NaN or a fault — the function is total), and
`similarity_search` then returns the empty sequence, because no similarity
passes the strict-positivity filter. -/
theorem C5_zero_query_empty (v : String → Vec) (st : LocalVectorStore)
    (q : String) (k : Int) (hz : ∀ x ∈ v q, x = 0) :
    (∀ b : Vec, (cosineSim (v q) b).num = 0) ∧
    st.similarity_search v q k = [] := by
  have hnum : ∀ b : Vec, (cosineSim (v q) b).num = 0 := fun b =>
    dot_eq_zero_of_zero_left (v q) b hz
  refine ⟨hnum, ?_⟩
  unfold LocalVectorStore.similarity_search
  split_ifs
  · rfl
  · have hsim : ∀ i : Nat,
        (((st.embeddings.getD []).map (fun e => cosineSim (v q) e)).getD i simZero).num
          = 0 := by
      intro i
      by_cases h : i < ((st.embeddings.getD []).map (fun e => cosineSim (v q) e)).length
      · rw [getD_of_lt _ i simZero h, List.getElem_map]
        exact hnum _
      · rw [getD_of_ge _ i simZero (by omega)]
        rfl
    rw [List.filterMap_eq_nil_iff]
    intro i _
    have hfalse :
        (((st.embeddings.getD []).map (fun e => cosineSim (v q) e)).getD i simZero).pos
          = false := by
      unfold Sim.pos
      rw [hsim i]
      simp
    simp only [hfalse]
    simp

/-- Claim C5 witness: a query vectorizing to the zero vector against a
one-chunk index yields similarity 0 everywhere and an empty result. -/
theorem C5_witness :
    (∀ x ∈ (fun _ : String => ([0, 0] : Vec)) "unrelated", x = 0) ∧
    ((∀ b : Vec, (cosineSim ((fun _ : String => ([0, 0] : Vec)) "unrelated") b).num = 0) ∧
      (LocalVectorStore.empty.add_documents (fun _ => [1, 0])
        [⟨"chunk", []⟩]).similarity_search (fun _ => [0, 0]) "unrelated" 3 = []) :=
  ⟨by with_unfolding_all decide,
   C5_zero_query_empty (fun _ => [0, 0])
     (LocalVectorStore.empty.add_documents (fun _ => [1, 0]) [⟨"chunk", []⟩])
     "unrelated" 3 (by with_unfolding_all decide)⟩

/-! ### Claim C8 -/

/-- Claim C8, counterexample: `add_documents` (indexer.py) does not skip a
chunk with empty text — the chunk is stored together with a vector computed
for it, so the index does not contain vectors only for well-formed chunks. -/
theorem C8_counterexample :
    (LocalVectorStore.empty.add_documents (fun _ => [1])
        [⟨"", []⟩, ⟨"hello", []⟩]).documents = [⟨"", []⟩, ⟨"hello", []⟩] ∧
    (LocalVectorStore.empty.add_documents (fun _ => [1])
        [⟨"", []⟩, ⟨"hello", []⟩]).embeddings = some [[1], [1]] ∧
    (⟨"", []⟩ : Doc).page_content = "" := by
  with_unfolding_all decide

/-- Claim C8 (amended): a chunk with empty text never aborts indexing — the
true part of the claim — but it is not skipped either: `add_documents`
stores every chunk of the batch, including the empty-text ones, with one
vector per chunk. -/
theorem C8_empty_chunk_still_indexed (fit : String → Vec) (C : List Doc)
    (_h : ∃ d ∈ C, d.page_content = "") :
    (LocalVectorStore.empty.add_documents fit C).documents = C ∧
    ((LocalVectorStore.empty.add_documents fit C).embeddings.getD []).length
      = C.length := by
  refine ⟨rfl, ?_⟩
  simp [LocalVectorStore.add_documents]

/-- Claim C8 witness: the two-chunk batch with one empty chunk is stored in
full, with both vectors computed. -/
theorem C8_witness :
    (∃ d ∈ [(⟨"", []⟩ : Doc), ⟨"hello", []⟩], d.page_content = "") ∧
    ((LocalVectorStore.empty.add_documents (fun _ => [1])
        [⟨"", []⟩, ⟨"hello", []⟩]).documents = [⟨"", []⟩, ⟨"hello", []⟩] ∧
      ((LocalVectorStore.empty.add_documents (fun _ => [1])
        [⟨"", []⟩, ⟨"hello", []⟩]).embeddings.getD []).length
          = [(⟨"", []⟩ : Doc), ⟨"hello", []⟩].length) :=
  ⟨by decide,
   C8_empty_chunk_still_indexed (fun _ => [1]) [⟨"", []⟩, ⟨"hello", []⟩] (by decide)⟩

/-! ### Claim C10 -/

/-- Claim C10: in the TF-IDF `keyword_search` (indexer_with_json.py), query
words of at most 3 characters contribute nothing, so a query made only of
such words returns the empty sequence against any store and any `k`. -/
theorem C10_short_query_empty (st : LocalVectorStore) (q : String) (k : Int)
    (h : ∀ w ∈ pySplitWS (pyLower q), w.length ≤ 3) :
    st.keyword_search q k = [] := by
  unfold LocalVectorStore.keyword_search
  split_ifs
  · rfl
  · have hz : ∀ c, kwScore (pySplitWS (pyLower q)) c = 0 := fun c =>
      kwScore_eq_zero_of_short _ c h
    simp only [hz]
    simp only [lt_irrefl, if_false]
    rw [show List.filterMap (fun doc : Doc => (none : Option (Nat × Doc)))
        st.documents = [] from List.filterMap_eq_nil_iff.mpr (fun a _ => rfl)]
    simp [sortDesc, pySliceFirstK]

/-- Claim C10 witness: the query "the cat is" (all words ≤ 3 characters)
returns nothing even though every word occurs verbatim in the only chunk. -/
theorem C10_witness :
    (∀ w ∈ pySplitWS (pyLower "the cat is"), w.length ≤ 3) ∧
    (LocalVectorStore.empty.add_documents (fun _ => [1])
      [⟨"the cat is here", []⟩]).keyword_search "the cat is" 5 = [] :=
  ⟨by with_unfolding_all decide,
   C10_short_query_empty
     (LocalVectorStore.empty.add_documents (fun _ => [1]) [⟨"the cat is here", []⟩])
     "the cat is" 5 (by with_unfolding_all decide)⟩

/-! ### Claim C2 -/

/-- Claim C2, counterexample: two chunks with identical (hence equal-scoring,
positive) vectors come back in reverse ingestion order, because
`argsort()[-k:][::-1]` reverses the ascending order — and with it the ties —
even under a stable model of `argsort`. -/
theorem C2_counterexample :
    (LocalVectorStore.empty.add_documents (fun _ => [1])
        [⟨"first", []⟩, ⟨"second", []⟩]).similarity_search (fun _ => [1]) "q" 3
      = [⟨"second", []⟩, ⟨"first", []⟩] ∧
    (cosineSim ([1] : Vec) [1]).pos = true ∧
    (⟨"first", []⟩ : Doc) ≠ ⟨"second", []⟩ := by
  with_unfolding_all decide

/-- Claim C2 (amended): when every indexed chunk has the same positive
similarity to the query and `k` covers the whole index, `similarity_search`
returns the chunks in reverse ingestion order.  The search is deterministic
(the model is a pure function), but the tie-break is reversal, not
preservation, of ingestion order. -/
theorem C2_equal_scores_reversed (fit : String → Vec) (D : List Doc)
    (q : String) (k : Int) (s : Sim)
    (hall : ∀ d ∈ D, cosineSim (fit q) (fit d.page_content) = s)
    (hpos : s.pos = true)
    (hk : (D.length : Int) ≤ k) :
    (LocalVectorStore.empty.add_documents fit D).similarity_search fit q k
      = D.reverse := by
  unfold LocalVectorStore.similarity_search
  split_ifs with hguard
  · rcases hguard with hnone | hlen
    · simp [LocalVectorStore.add_documents] at hnone
    · have hD : D = [] := List.length_eq_zero.mp hlen
      rw [hD]
      rfl
  · have hn0 : ¬ D.length = 0 := fun h0 => hguard (Or.inr h0)
    have hsims : ∀ x ∈ (D.map (fun d => fit d.page_content)).map
        (fun e => cosineSim (fit q) e), x = s := by
      intro x hx
      rw [List.mem_map] at hx
      obtain ⟨e, he, rfl⟩ := hx
      rw [List.mem_map] at he
      obtain ⟨d, hd, rfl⟩ := he
      exact hall d hd
    have hsort : argsort ((D.map (fun d => fit d.page_content)).map
        (fun e => cosineSim (fit q) e)) = List.range D.length := by
      rw [argsort_of_const _ s hsims]
      simp
    show ((pySliceLastK k (argsort ((D.map (fun d => fit d.page_content)).map
        (fun e => cosineSim (fit q) e)))).reverse).filterMap
        (fun idx => if (((D.map (fun d => fit d.page_content)).map
            (fun e => cosineSim (fit q) e)).getD idx simZero).pos = true
          then D[idx]? else none) = D.reverse
    rw [hsort]
    have hslice : pySliceLastK k (List.range D.length) = List.range D.length := by
      unfold pySliceLastK
      rw [if_neg (by omega)]
      have hz : (List.range D.length).length - k.toNat = 0 := by
        rw [List.length_range]
        omega
      rw [hz, List.drop_zero]
    rw [hslice, List.filterMap_reverse]
    have hcongr : (List.range D.length).filterMap
        (fun idx => if (((D.map (fun d => fit d.page_content)).map
            (fun e => cosineSim (fit q) e)).getD idx simZero).pos = true
          then D[idx]? else none) =
        (List.range D.length).filterMap (fun i => D[i]?) := by
      apply filterMap_congr_mem
      intro i hi
      rw [List.mem_range] at hi
      have hlt : i < ((D.map (fun d => fit d.page_content)).map
          (fun e => cosineSim (fit q) e)).length := by
        simpa using hi
      rw [getD_of_lt _ i simZero hlt, hsims _ (List.getElem_mem hlt), hpos]
      simp
    rw [hcongr, range_filterMap_getElem]

/-- Claim C2 witness: two equal-vector chunks with `k = 3` come back exactly
reversed. -/
theorem C2_witness :
    (∀ d ∈ [(⟨"first", []⟩ : Doc), ⟨"second", []⟩],
        cosineSim ((fun _ : String => ([1] : Vec)) "q")
          ((fun _ : String => ([1] : Vec)) d.page_content) = ⟨1, 1⟩) ∧
    ((⟨1, 1⟩ : Sim).pos = true) ∧
    ((([(⟨"first", []⟩ : Doc), ⟨"second", []⟩].length : Int)) ≤ 3) ∧
    (LocalVectorStore.empty.add_documents (fun _ => [1])
        [⟨"first", []⟩, ⟨"second", []⟩]).similarity_search (fun _ => [1]) "q" 3
      = [(⟨"first", []⟩ : Doc), ⟨"second", []⟩].reverse :=
  ⟨by with_unfolding_all decide, by with_unfolding_all decide, by decide,
   C2_equal_scores_reversed (fun _ => [1]) [⟨"first", []⟩, ⟨"second", []⟩] "q" 3
     ⟨1, 1⟩ (by with_unfolding_all decide) (by with_unfolding_all decide) (by decide)⟩

/-! ### Claim C6 -/

/-- Claim C6, counterexample: the claimed score formula has no word-length
filter, but the code ignores query words of 3 or fewer characters — the
3-character query "cat" retrieves nothing although it occurs twice in the
chunk (first two conjuncts); in the other cited implementation
(indexer_with_local_embeddings.py) the score is the number of distinct shared
words instead, which reverses the claimed ranking on the last two
conjuncts. -/
theorem C6_counterexample :
    (LocalVectorStore.empty.add_documents (fun _ => [1])
        [⟨"cat cat", []⟩]).keyword_search "cat" 3 = [] ∧
    claimKeywordSearch [⟨"cat cat", []⟩] "cat" 3 = [⟨"cat cat", []⟩] ∧
    (LocalEmbeddingVectorStore.empty.add_documents (fun _ => [1])
        [⟨"alpha beta", []⟩, ⟨"alpha alpha alpha", []⟩]).keyword_search
        "alpha beta beta" 2
      = [⟨"alpha beta", []⟩, ⟨"alpha alpha alpha", []⟩] ∧
    claimKeywordSearch [⟨"alpha beta", []⟩, ⟨"alpha alpha alpha", []⟩]
        "alpha beta beta" 2
      = [⟨"alpha alpha alpha", []⟩, ⟨"alpha beta", []⟩] := by
  with_unfolding_all decide

/-- Claim C6 (amended): the TF-IDF `keyword_search` implements exactly the
claimed algorithm except that only query words longer than 3 characters are
scored; on queries whose words all exceed 3 characters it coincides with the
claimed search (scoring, zero-discard, stable descending sort and top-k
included). -/
theorem C6_long_words_match_claim (q : String)
    (h : ∀ w ∈ pySplitWS (pyLower q), 3 < w.length)
    (st : LocalVectorStore) (k : Int) :
    st.keyword_search q k = claimKeywordSearch st.documents q k := by
  have hsc : ∀ c, kwScore (pySplitWS (pyLower q)) c
      = claimKwScore (pySplitWS (pyLower q)) c := fun c =>
    kwScore_eq_claim_of_long _ c h
  unfold LocalVectorStore.keyword_search claimKeywordSearch
  split_ifs with hemp
  · have hD : st.documents = [] := by
      simpa [List.isEmpty_iff] using hemp
    rw [hD]
    simp [sortDesc, pySliceFirstK]
  · simp only [hsc]

/-- Claim C6 witness: on an all-long-words query the code search and the
claimed search agree. -/
theorem C6_witness :
    (∀ w ∈ pySplitWS (pyLower "alpha beta beta"), 3 < w.length) ∧
    (LocalVectorStore.empty.add_documents (fun _ => [1])
        [⟨"alpha beta", []⟩, ⟨"alpha alpha alpha", []⟩]).keyword_search
        "alpha beta beta" 2
      = claimKeywordSearch (LocalVectorStore.empty.add_documents (fun _ => [1])
          [⟨"alpha beta", []⟩, ⟨"alpha alpha alpha", []⟩]).documents
          "alpha beta beta" 2 :=
  ⟨by with_unfolding_all decide,
   C6_long_words_match_claim "alpha beta beta" (by with_unfolding_all decide)
     (LocalVectorStore.empty.add_documents (fun _ => [1])
       [⟨"alpha beta", []⟩, ⟨"alpha alpha alpha", []⟩]) 2⟩
